import Mathlib

/-!
# Verification of the codewars-mcp-socratic-tutor repository

Shallow embedding of `src/api_client.py` and `src/main.py`.

JSON-like Python values are modelled by `PyVal`; the filesystem by an
association list from paths to file data; each tool body runs in a
state-and-exception monad `M` whose exceptions mirror the Python
exception classes the source raises and catches.  Network I/O is
modelled by an `HttpOutcome` oracle passed to the embedded
`api_client` functions, and `random.choice` by a natural-number pick
supplied to `practice_python`.
-/

set_option autoImplicit false

namespace CodewarsTutor

/-- A JSON-like Python value: string, list, or string-keyed dict.
(The repository's data never uses numbers or booleans in a way any
claim depends on; ints appear only as lengths, modelled by `Nat`.) -/
inductive PyVal where
  | pstr (s : String)
  | plist (xs : List PyVal)
  | pdict (fields : List (String × PyVal))
  deriving Repr

mutual
/-- Python `==` between JSON-like values: structural equality; values of
different types (str vs list vs dict) are never equal. -/
def pyEq : PyVal → PyVal → Bool
  | .pstr a, .pstr b => a == b
  | .plist a, .plist b => pyEqList a b
  | .pdict a, .pdict b => pyEqFields a b
  | _, _ => false

def pyEqList : List PyVal → List PyVal → Bool
  | [], [] => true
  | a :: as, b :: bs => pyEq a b && pyEqList as bs
  | _, _ => false

def pyEqFields : List (String × PyVal) → List (String × PyVal) → Bool
  | [], [] => true
  | (k, v) :: as, (k2, v2) :: bs => k == k2 && pyEq v v2 && pyEqFields as bs
  | _, _ => false
end

/-- Python `key in container`: for a list, element-wise `==` membership;
for a dict, key lookup.  (This distinction is load-bearing: `main.py`
tests `"error" in completed_katas_data` where the value is a *list*.) -/
def pyIn (key : PyVal) : PyVal → Bool
  | .pstr _ => false
  | .plist xs => xs.any (fun x => pyEq key x)
  | .pdict fields =>
    match key with
    | .pstr k => fields.any (fun f => f.1 == k)
    | _ => false

/-- Python truthiness of a JSON-like value: empty string/list/dict are falsy. -/
def pyTruthy : PyVal → Bool
  | .pstr s => s ≠ ""
  | .plist xs => !xs.isEmpty
  | .pdict fields => !fields.isEmpty

/-- `dict.get(k, default)` / plain assoc lookup on a dict's fields. -/
def lookupField (k : String) : List (String × PyVal) → Option PyVal
  | [] => none
  | (k2, v) :: rest => if k2 == k then some v else lookupField k rest

/-- Pure lookup `d[k]` on a `PyVal`, `none` when the key is absent or the
value is not a dict (the monadic wrapper turns those into exceptions). -/
def pyGet? (v : PyVal) (k : String) : Option PyVal :=
  match v with
  | .pdict fields => lookupField k fields
  | _ => none

/-- How Python's f-string renders one of our values (`str()`): a string
renders as itself; no claim exercises rendering of lists or dicts. -/
def pyDisplay : PyVal → String
  | .pstr s => s
  | .plist _ => "<list>"
  | .pdict _ => "<dict>"

/-- `len()` of a list value (the only `len` use in the source). -/
def pyLen : PyVal → Nat
  | .plist xs => xs.length
  | _ => 0

example : pyIn (.pstr "error") (.plist [.pdict [("error", .pstr "boom")]]) = false := by
  decide

example : pyIn (.pstr "error") (.pdict [("error", .pstr "boom")]) = true := by
  decide

/-! ## Python exceptions

The exception classes the source raises or catches.  `jsonDecodeError`
is a subclass of `ValueError`; the handler predicates below encode the
class hierarchy as used by the `except` clauses in the source. -/

inductive PyExc where
  | keyError (k : String)
  | typeError (msg : String)
  | attributeError (msg : String)
  | ioError (msg : String)
  | valueError (msg : String)
  | jsonDecodeError (msg : String)
  | reError (msg : String)
  | other (msg : String)
  deriving Repr, DecidableEq

/-- Python `str(e)` for the exceptions we model.  `str` of a `KeyError`
is the `repr` of the missing key, i.e. quoted. -/
def excStr : PyExc → String
  | .keyError k => "'" ++ k ++ "'"
  | .typeError m => m
  | .attributeError m => m
  | .ioError m => m
  | .valueError m => m
  | .jsonDecodeError m => m
  | .reError m => m
  | .other m => m

def isIOError : PyExc → Bool
  | .ioError _ => true
  | _ => false

def isKeyError : PyExc → Bool
  | .keyError _ => true
  | _ => false

def isTypeError : PyExc → Bool
  | .typeError _ => true
  | _ => false

def isJSONDecodeError : PyExc → Bool
  | .jsonDecodeError _ => true
  | _ => false

def isReError : PyExc → Bool
  | .reError _ => true
  | _ => false

/-! ## Filesystem model

Paths are lists of components relative to `BASE_DIR`.  A file holds
either free text (`README.md`, `solution.py`) or a parsed JSON
document; `jsonBad` stands for a file whose bytes fail to parse as
JSON (`json.loads` raises `json.JSONDecodeError` on it). -/

inductive FileData where
  | text (s : String)
  | jsonVal (v : PyVal)
  | jsonBad (msg : String)
  deriving Repr

structure FS where
  dirs : List (List String)
  files : List (List String × FileData)

/-- Read a file's data (pure lookup; monadic wrapper adds fault injection). -/
def getFile (p : List String) : List (List String × FileData) → Option FileData
  | [] => none
  | (q, d) :: rest => if q = p then some d else getFile p rest

/-- Overwrite-or-insert a file (wholesale replace, as every write in the
source is). -/
def setFile (p : List String) (d : FileData) :
    List (List String × FileData) → List (List String × FileData)
  | [] => [(p, d)]
  | (q, d2) :: rest => if q = p then (p, d) :: rest else (q, d2) :: setFile p d rest

/-- `Path.exists()`: true for a present file or directory. -/
def FS.exists (fs : FS) (p : List String) : Bool :=
  (getFile p fs.files).isSome || fs.dirs.contains p

/-! ## The effect monad

`M α` is state (filesystem plus an I/O fault oracle) with Python
exceptions.  Crucially, raising an exception does *not* roll the state
back, exactly as in Python: a file written before a later `KeyError`
stays written.  Each filesystem touch consumes one oracle entry;
`some msg` makes that touch raise `IOError(msg)`, and an exhausted
(empty) oracle means every remaining touch succeeds. -/

structure St where
  fs : FS
  io : List (Option String)

def M (α : Type) : Type := St → Except PyExc α × St

def mret {α : Type} (a : α) : M α := fun st => (.ok a, st)

def mbind {α β : Type} (m : M α) (f : α → M β) : M β := fun st =>
  match m st with
  | (.ok a, st2) => f a st2
  | (.error e, st2) => (.error e, st2)

instance : Monad M where
  pure := mret
  bind := mbind

/-- Raise a Python exception. -/
def mraise {α : Type} (e : PyExc) : M α := fun st => (.error e, st)

/-- `try body except ...`: run the body; on an exception, run the handler
the `except` chain selects for it (state as of the raise point), or
re-raise when no clause matches. -/
def pyTry {α : Type} (body : M α) (handler : PyExc → Option (M α)) : M α := fun st =>
  match body st with
  | (.ok a, st2) => (.ok a, st2)
  | (.error e, st2) =>
    match handler e with
    | some h => h st2
    | none => (.error e, st2)

/-- One filesystem touch: consume an oracle entry, raising on a fault. -/
def ioStep : M Unit := fun st =>
  match st.io with
  | [] => (.ok (), st)
  | none :: rest => (.ok (), { st with io := rest })
  | some msg :: rest => (.error (.ioError msg), { st with io := rest })

/-- `Path.exists()` (does not touch the oracle; never raises). -/
def mexists (p : List String) : M Bool := fun st => (.ok (st.fs.exists p), st)

/-- `path.mkdir(parents=True, exist_ok=True)`: idempotent directory creation. -/
def mmkdir (p : List String) : M Unit := do
  ioStep
  fun st =>
    (.ok (), { st with fs := { st.fs with
      dirs := if st.fs.dirs.contains p then st.fs.dirs else p :: st.fs.dirs } })

/-- `path.write_text(...)` / `json.dump(..., open(path, "w"))`. -/
def mwrite (p : List String) (d : FileData) : M Unit := do
  ioStep
  fun st =>
    (.ok (), { st with fs := { st.fs with files := setFile p d st.fs.files } })

/-- `path.read_text()`: raises `IOError` when the file is absent
(`FileNotFoundError` is an `OSError`). -/
def mread (p : List String) : M FileData := do
  ioStep
  fun st =>
    match getFile p st.fs.files with
    | some d => (.ok d, st)
    | none => (.error (.ioError ("No such file: " ++ String.intercalate "/" p)), st)

/-- `json.loads` applied to a read file's data. -/
def jsonLoads : FileData → M PyVal
  | .jsonVal v => mret v
  | .jsonBad msg => mraise (.jsonDecodeError msg)
  | .text s => mraise (.jsonDecodeError ("Expecting value: " ++ s))

/-- `v[k]` on a Python value: `KeyError` when a dict lacks the key,
`TypeError` when the value is not a dict at all. -/
def pyGetItem (v : PyVal) (k : String) : M PyVal :=
  match v with
  | .pdict fields =>
    match lookupField k fields with
    | some x => mret x
    | none => mraise (.keyError k)
  | _ => mraise (.typeError "value is not subscriptable by string key")

/-- Iterate a Python value as a list (`TypeError` when it is not a list). -/
def pyIterList (v : PyVal) : M (List PyVal) :=
  match v with
  | .plist xs => mret xs
  | _ => mraise (.typeError "value is not iterable")

/-- A Python `str` method applied to a non-str value raises
`AttributeError`; extract the string otherwise. -/
def pyAsStr (v : PyVal) : M String :=
  match v with
  | .pstr s => mret s
  | _ => mraise (.attributeError "value has no str attributes")

/-! ## Pure string helpers of `main.py`

The embedding works over the ASCII fragment: `str.isalnum` /
`str.lower` are modelled by `Char.isAlphanum` / `Char.toLower`, which
agree with Python on ASCII (all titles the claims exercise). -/

/-- Python `str.strip()`: drop whitespace from both ends. -/
def pyStrip (s : List Char) : List Char :=
  ((s.dropWhile Char.isWhitespace).reverse.dropWhile Char.isWhitespace).reverse

/-- `sanitize_folder_name` (`main.py:28`): keep alphanumerics, spaces,
hyphens and underscores; strip; spaces to underscores; lowercase. -/
def sanitize_folder_name (name : String) : String :=
  let cleaned := name.data.filter
    (fun c => c.isAlphanum || c == ' ' || c == '-' || c == '_')
  let stripped := pyStrip cleaned
  String.mk ((stripped.map (fun c => if c == ' ' then '_' else c)).map Char.toLower)

/-- The stripped cleaned character list of `main.py:46-49`: the value
of `cleaned_name` (filter, then `.strip()`), from which the slug is
obtained by replacing spaces with underscores and lowercasing. -/
def strippedChars (name : String) : List Char :=
  pyStrip (name.data.filter (fun c => c.isAlphanum || c == ' ' || c == '-' || c == '_'))

/-- The maximal alphanumeric runs of a string, in order: the non-empty
tokens of Python's `re.split(r'[^a-zA-Z0-9]+', name)` (the `if word`
guard in the source drops the empty boundary tokens `re.split`
produces). `acc` accumulates the current run, reversed. -/
def alnumTokensAux : List Char → List Char → List (List Char)
  | [], acc => if acc.isEmpty then [] else [acc.reverse]
  | c :: rest, acc =>
    if c.isAlphanum then
      alnumTokensAux rest (c :: acc)
    else if acc.isEmpty then
      alnumTokensAux rest []
    else
      acc.reverse :: alnumTokensAux rest []

def alnumTokens (s : List Char) : List (List Char) :=
  alnumTokensAux s []

/-- The joined result before any prefixing: lowercase the surviving
tokens and join them with underscores (`main.py:71-72`). -/
def snakeCaseName (name : String) : String :=
  String.intercalate "_"
    ((alnumTokens name.data).map (fun w => String.mk (w.map Char.toLower)))

/-- `generate_function_name` (`main.py:53`): snake-case the title and
prefix `kata_` when the (non-empty) result starts with a digit. -/
def generate_function_name (name : String) : String :=
  if snakeCaseName name ≠ "" && ((snakeCaseName name).data.headD ' ').isDigit then
    "kata_" ++ snakeCaseName name
  else
    snakeCaseName name

/-! ## The kata-id extraction regex of `import_kata`

`re.search(r'kata/([a-f0-9]+)|([a-f0-9]{24})', url_or_id)` with
Python's leftmost-match semantics: scan start positions left to right;
at each position try the `kata/<hex>+` alternative first (greedy hex
run), then the bare 24-hex-character alternative. -/

/-- One character of the class `[a-f0-9]`. -/
def isHexLower (c : Char) : Bool :=
  ('a' ≤ c && c ≤ 'f') || c.isDigit

/-- Try the alternation at one fixed start position; return the
captured group (`group(1) or group(2)` — whichever alternative
matched; both captures are non-empty when they match). -/
def matchAlternativesAt (s : List Char) : Option (List Char) :=
  let alt1 :=
    match s with
    | 'k' :: 'a' :: 't' :: 'a' :: '/' :: rest =>
      let run := rest.takeWhile isHexLower
      if run.isEmpty then none else some run
    | _ => none
  match alt1 with
  | some r => some r
  | none =>
    let pre := s.take 24
    if pre.length = 24 && pre.all isHexLower then some pre else none

/-- `re.search`: the captured hex of the leftmost matching position. -/
def reSearchKata : List Char → Option (List Char)
  | [] => none
  | c :: rest =>
    match matchAlternativesAt (c :: rest) with
    | some r => some r
    | none => reSearchKata rest

/-- The identifier `import_kata` passes to the detail fetch
(`main.py:188-193`): the captured hex when the regex matches anywhere,
else the trimmed input verbatim. -/
def extract_kata_id (input : String) : String :=
  match reSearchKata input.data with
  | some r => String.mk r
  | none => String.mk (pyStrip input.data)

example : extract_kata_id "https://www.codewars.com/kata/5277c8a221e209d3f6000b56" =
    "5277c8a221e209d3f6000b56" := by decide

example : extract_kata_id "5277c8a221e209d3f6000b56" = "5277c8a221e209d3f6000b56" := by
  decide

example : extract_kata_id "  valid-braces  " = "valid-braces" := by decide

example : sanitize_folder_name "Valid Braces" = "valid_braces" := by decide

example : sanitize_folder_name "Stop gninnipS My sdroW!" = "stop_gninnips_my_sdrow" := by
  decide

example : generate_function_name "Valid Braces" = "valid_braces" := by decide

example : generate_function_name "123 Numbers" = "kata_123_numbers" := by decide

/-! ## `api_client.py` — the catalog client

Each fetch wraps one HTTP GET.  The HTTP layer's behaviour on that one
request is an `HttpOutcome` oracle; the embedded functions map it to
the value the source returns.  They are total: the source catches
every exception class (`httpx.TimeoutException`, `httpx.ConnectError`,
`httpx.HTTPStatusError`, and `Exception`) and returns an error value
instead of raising. -/

inductive HttpOutcome where
  /-- The request completed with `status`, a body that parses as JSON
  to `body` (consulted only on 2xx), and raw text `textBody`. -/
  | response (status : Nat) (body : PyVal) (textBody : String)
  /-- The request completed with a 2xx status but `.json()` raises
  (`ValueError`) with message `msg`. -/
  | badJsonBody (msg : String)
  /-- `httpx.TimeoutException`: the request exceeded the timeout. -/
  | timeout
  /-- `httpx.ConnectError`. -/
  | connectError
  /-- Any other exception, with `str(e) = msg`. -/
  | otherExc (msg : String)
  deriving Repr

/-- A success (2xx) HTTP status. -/
def is2xx (status : Nat) : Bool := 200 ≤ status && status < 300

/-- The single-element error list `[{"error": msg}]` that
`fetch_user_completed` returns on failure. -/
def errorList (msg : String) : PyVal := .plist [.pdict [("error", .pstr msg)]]

/-- The error dict `{"error": msg}` the other fetchers return on failure. -/
def errorDict (msg : String) : PyVal := .pdict [("error", .pstr msg)]

def connectErrorMsg : String := "Error de conexión. Verifica tu conexión a internet."

def httpErrorMsg (status : Nat) (textBody : String) : String :=
  "Error HTTP " ++ toString status ++ ": " ++ textBody

/-- `fetch_codewars_user` (`api_client.py:23`). -/
def fetch_codewars_user (username : String) (out : HttpOutcome) : PyVal :=
  match out with
  | .response status body textBody =>
    if status == 404 then
      errorDict ("El usuario '" ++ username ++ "' no existe en CodeWars.")
    else if is2xx status then
      body
    else
      errorDict (httpErrorMsg status textBody)
  | .badJsonBody msg =>
    errorDict ("Error inesperado al obtener usuario: " ++ msg)
  | .timeout =>
    errorDict ("Timeout al conectar con CodeWars API para usuario '" ++ username ++
      "'. Intenta nuevamente.")
  | .connectError => errorDict connectErrorMsg
  | .otherExc msg =>
    errorDict ("Error inesperado al obtener usuario: " ++ msg)

/-- `fetch_user_completed` (`api_client.py:85`): on 2xx returns
`json_data.get("data", [])`; failures yield `[{"error": ...}]`.  A
non-dict 2xx body makes `.get` raise `AttributeError`, landing in the
source's `except Exception`.  The page number appears only in the request URL,
never in any message or result. -/
def fetch_user_completed (username : String) (_page : Nat) (out : HttpOutcome) : PyVal :=
  match out with
  | .response status body textBody =>
    if status == 404 then
      errorList ("Usuario '" ++ username ++ "' no encontrado.")
    else if is2xx status then
      match body with
      | .pdict fields => (lookupField "data" fields).getD (.plist [])
      | _ =>
        errorList ("Error inesperado al obtener katas completados: " ++
          "object has no attribute get")
    else
      errorList (httpErrorMsg status textBody)
  | .badJsonBody msg =>
    errorList ("Error al parsear respuesta de la API: " ++ msg)
  | .timeout =>
    errorList ("Timeout al obtener katas completados de '" ++ username ++
      "'. Intenta nuevamente.")
  | .connectError => errorList connectErrorMsg
  | .otherExc msg =>
    errorList ("Error inesperado al obtener katas completados: " ++ msg)

/-- `fetch_kata_details` (`api_client.py:150`). -/
def fetch_kata_details (kata_id_or_slug : String) (out : HttpOutcome) : PyVal :=
  match out with
  | .response status body textBody =>
    if status == 404 then
      errorDict ("Ejercicio '" ++ kata_id_or_slug ++ "' no encontrado.")
    else if is2xx status then
      body
    else
      errorDict (httpErrorMsg status textBody)
  | .badJsonBody msg =>
    errorDict ("Error inesperado al obtener detalles del kata: " ++ msg)
  | .timeout =>
    errorDict ("Timeout al obtener detalles del kata '" ++ kata_id_or_slug ++
      "'. Intenta nuevamente.")
  | .connectError => errorDict connectErrorMsg
  | .otherExc msg =>
    errorDict ("Error inesperado al obtener detalles del kata: " ++ msg)

/-! ## `main.py` — paths and state store -/

/-- Paths relative to `BASE_DIR` (the constant absolute prefix is elided). -/
def INDEX_PATH : List String := ["data", "katas_index.json"]

def CONFIG_PATH : List String := ["data", "config.json"]

def HISTORY_PATH : List String := ["data", "user_history.json"]

/-- `HISTORY_PATH.parent`, created with `mkdir(parents=True, exist_ok=True)`. -/
def HISTORY_PARENT : List String := ["data"]

def EXERCISES_DIR : List String := ["exercises"]

/-- How a `Path` renders in an f-string. -/
def pathStr (p : List String) : String := String.intercalate "/" p

/-- `load_config` (`main.py:80`): `None` when the file is absent; a
`json.JSONDecodeError` is converted to a raised `ValueError`. -/
def load_config : M (Option PyVal) := do
  let ex ← mexists CONFIG_PATH
  if ex then
    pyTry
      (do
        let d ← mread CONFIG_PATH
        let v ← jsonLoads d
        pure (some v))
      (fun e =>
        if isJSONDecodeError e then
          some (mraise (.valueError ("Invalid JSON in config file: " ++ excStr e)))
        else none)
  else
    pure none

/-- `sync_history_internal` (`main.py:94`): fetch completed page 0,
bail out with `[]` when the result is an error value, else overwrite
the history snapshot and return the ids.  Note the guard tests
`"error" in completed_katas_data` on a *list*, and the trailing
`except (IOError, KeyError, TypeError)` also returns `[]`. -/
def sync_history_internal (username : String) (out : HttpOutcome) : M (List PyVal) :=
  pyTry
    (do
      let completed_katas_data := fetch_user_completed username 0 out
      if pyIn (.pstr "error") completed_katas_data then
        pure []
      else do
        mmkdir HISTORY_PARENT
        mwrite HISTORY_PATH (.jsonVal completed_katas_data)
        let xs ← pyIterList completed_katas_data
        xs.mapM (fun kata => pyGetItem kata "id"))
    (fun e =>
      if isIOError e || isKeyError e || isTypeError e then some (pure []) else none)

/-! ## `main.py` — the exercise materializer -/

/-- The `README.md` body (`main.py:324-330`). -/
def readmeContent (name rank_name url description : String) : String :=
  "# " ++ name ++ " [" ++ rank_name ++ "]\n\n**URL:** " ++ url ++
    "\n\n## Descripción\n" ++ description ++ "\n"

/-- The `solution.py` stub (`main.py:336-360`). -/
def solutionTemplate (name rank_name url function_name : String) : String :=
  "\"\"\"\nKata: " ++ name ++ "\nNivel: " ++ rank_name ++ "\nURL: " ++ url ++
    "\n\"\"\"\n\ndef " ++ function_name ++
    "(args):\n    \"\"\"Implement kata solution here.\n    \n" ++
    "    Note: Verify on CodeWars if the function name '" ++ function_name ++
    "' is correct\n    (sometimes they use camelCase instead of snake_case).\n" ++
    "    \n    Args:\n        args: Replace with actual parameter names and types.\n" ++
    "        \n    Returns:\n        Replace with actual return type.\n    \"\"\"\n" ++
    "    pass\n\n\nif __name__ == \"__main__\":\n" ++
    "    print(f\"Testing \x7b__name__.split('.')[0]\x7d...\")\n    # Add test cases here\n"

/-- The success summary (`main.py:363-372`). -/
def setupSuccessMsg (origin name : String) (folder : List String)
    (function_name : String) : String :=
  "\n🚀 EJERCICIO LISTO (" ++ origin ++ ")\n\nHe preparado: **" ++ name ++
    "**\n\n📂 Carpeta: `" ++ pathStr folder ++
    "`\n📄 Archivo: `solution.py` con la función `def " ++ function_name ++
    "(...):`\n\nDile al usuario que abra esa carpeta y comience a leer el README.\n"

def missingFieldMsg (e : PyExc) : String :=
  "❌ Error: Falta campo requerido en kata_details: " ++ excStr e

/-- `setup_exercise_environment` (`main.py:296`).  `rank` and its
`name` are read with `.get` (defaults `{}` / `'N/A'`); `name`, `url`
and `description` with plain subscription, so a missing one raises
`KeyError` — after the folder has already been created.  The stub is
written only when absent; the README is always rewritten. -/
def setup_exercise_environment (kata_details : PyVal) (origin : String) : M String :=
  pyTry
    (do
      let rank_info ←
        match kata_details with
        | .pdict fields => pure ((lookupField "rank" fields).getD (.pdict []))
        | _ => mraise (.attributeError "object has no attribute get")
      let rank_name_val ←
        match rank_info with
        | .pdict fields => pure ((lookupField "name" fields).getD (.pstr "N/A"))
        | _ => mraise (.attributeError "object has no attribute get")
      let rank_name_str ← pyAsStr rank_name_val
      let rank_name := String.mk (rank_name_str.data.filter (fun c => c != ' '))
      let nameVal ← pyGetItem kata_details "name"
      let nameStr ← pyAsStr nameVal
      let folder_slug := sanitize_folder_name nameStr
      let folder_name := rank_name ++ "_python_" ++ folder_slug
      let exercise_folder_path := EXERCISES_DIR ++ [folder_name]
      mmkdir exercise_folder_path
      let function_name := generate_function_name nameStr
      let urlVal ← pyGetItem kata_details "url"
      let descVal ← pyGetItem kata_details "description"
      let readme := readmeContent nameStr rank_name (pyDisplay urlVal) (pyDisplay descVal)
      mwrite (exercise_folder_path ++ ["README.md"]) (.text readme)
      let solution_file_path := exercise_folder_path ++ ["solution.py"]
      let stubExists ← mexists solution_file_path
      if !stubExists then
        mwrite solution_file_path
          (.text (solutionTemplate nameStr rank_name (pyDisplay urlVal) function_name))
      pure (setupSuccessMsg origin nameStr exercise_folder_path function_name))
    (fun e =>
      if isKeyError e then
        some (pure (missingFieldMsg e))
      else if isIOError e then
        some (pure ("❌ Error al crear archivos del ejercicio: " ++ excStr e))
      else
        some (pure ("❌ Error inesperado al configurar ejercicio: " ++ excStr e)))

/-! ## `main.py` — the tool surface -/

def noUserMsg : String :=
  "❌ Error: No se encontró configuración de usuario. Por favor ejecuta 'setup.py' primero."

def syncOkMsg (kata_count : Nat) : String :=
  "✅ Sincronización exitosa. Historial local actualizado con " ++
    toString kata_count ++ " ejercicios recientes."

/-- `update_progress` (`main.py:123`). -/
def update_progress (username : Option String) (out : HttpOutcome) : M String :=
  pyTry
    (do
      let config ← load_config
      let cfgUser : Option PyVal ←
        match config with
        | none => pure none
        | some c =>
          if pyTruthy c then
            match c with
            | .pdict fields => pure (lookupField "codewars_username" fields)
            | _ => mraise (.attributeError "object has no attribute get")
          else
            pure none
      let active_username : Option PyVal :=
        match username with
        | some u => if u ≠ "" then some (.pstr u) else cfgUser
        | none => cfgUser
      let activeTruthy :=
        match active_username with
        | some v => pyTruthy v
        | none => false
      if !activeTruthy then
        pure noUserMsg
      else do
        let activeStr := pyDisplay (active_username.getD (.pstr ""))
        let completed_katas_data := fetch_user_completed activeStr 0 out
        if pyIn (.pstr "error") completed_katas_data then do
          let e ← pyGetItem completed_katas_data "error"
          pure ("❌ Error conectando con CodeWars: " ++ pyDisplay e)
        else do
          mmkdir HISTORY_PARENT
          mwrite HISTORY_PATH (.jsonVal completed_katas_data)
          pure (syncOkMsg (pyLen completed_katas_data)))
    (fun e =>
      if isIOError e then
        some (pure ("❌ Error de archivo al guardar historial: " ++ excStr e))
      else
        some (pure ("❌ Error crítico al actualizar: " ++ excStr e)))

def importNotFoundMsg (kata_id : String) : String :=
  "❌ No pude encontrar el ejercicio '" ++ kata_id ++ "'. Verifica el ID o la URL."

/-- `import_kata` (`main.py:170`). -/
def import_kata (url_or_id : String) (out : HttpOutcome) : M String :=
  pyTry
    (do
      let kata_id := extract_kata_id url_or_id
      let kata_details := fetch_kata_details kata_id out
      if pyIn (.pstr "error") kata_details then
        pure (importNotFoundMsg kata_id)
      else
        setup_exercise_environment kata_details "Importación Manual")
    (fun e =>
      if isReError e then
        some (pure ("❌ Error al procesar la URL/ID: " ++ excStr e))
      else
        some (pure ("❌ Error al importar: " ++ excStr e)))

def noConfigMsg : String :=
  "❌ Error: No se encontró configuración. Por favor ejecuta setup.py primero."

def noUsernameMsg : String :=
  "❌ Error: No se encontró username en la configuración. Por favor ejecuta setup.py primero."

def indexMissingMsg : String :=
  "⚠️ Error: No encuentro 'data/katas_index.json'. Por favor ejecuta " ++
    "'python src/indexer.py' para generar la base de datos de ejercicios."

def allDoneMsg : String :=
  "🎉 ¡Increíble! Has completado todos los ejercicios indexados. Intenta ejecutar " ++
    "'src/indexer.py' de nuevo para buscar más, o usa 'import_kata' con una URL específica."

def cachedHistoryErrMsg (e : PyExc) : String :=
  "❌ Error al leer historial cacheado: " ++ excStr e

def downloadErrMsg (kata_name err : String) : String :=
  "❌ Hubo un error descargando el contenido del ejercicio '" ++ kata_name ++ "': " ++ err

/-- `random.choice(xs)` modelled with an index oracle `r`: the element
at position `r % xs.length` (for `r` below the length, exactly the
element at position `r`, so a uniform `r` gives a uniform choice).
Only called on non-empty lists, as in the source. -/
def listChoice (xs : List PyVal) (r : Nat) : PyVal :=
  xs.getD (r % xs.length) (.pstr "")

/-- The candidate filter (`main.py:262-265`):
`[kata for kata in full_kata_index if kata["id"] not in completed_kata_ids]`. -/
def availableKatas : List PyVal → List PyVal → M (List PyVal)
  | [], _ => pure []
  | kata :: rest, completed => do
    let idv ← pyGetItem kata "id"
    let tail ← availableKatas rest completed
    if completed.any (fun c => pyEq idv c) then
      pure tail
    else
      pure (kata :: tail)

/-- `practice_python` (`main.py:211`).  `completedOut` / `detailsOut`
are the HTTP oracles for its one completed-page fetch and one detail
fetch; `pick` models `random.choice` (the element at index
`pick % len` is chosen, so every candidate is selected by exactly one
`pick` below the candidate count). -/
def practice_python (completedOut detailsOut : HttpOutcome) (pick : Nat) : M String :=
  pyTry
    (do
      let config ← load_config
      let configTruthy :=
        match config with
        | none => false
        | some c => pyTruthy c
      if !configTruthy then
        pure noConfigMsg
      else do
        let usernameOpt ←
          match config.getD (.pstr "") with
          | .pdict fields => pure (lookupField "codewars_username" fields)
          | _ => mraise (.attributeError "object has no attribute get")
        let usernameTruthy :=
          match usernameOpt with
          | none => false
          | some v => pyTruthy v
        if !usernameTruthy then
          pure noUsernameMsg
        else do
          let username := pyDisplay (usernameOpt.getD (.pstr ""))
          let syncIds ← sync_history_internal username completedOut
          let histExists ← mexists HISTORY_PATH
          let cacheRes : Sum (List PyVal) String ←
            if syncIds.isEmpty && histExists then
              pyTry
                (do
                  let d ← mread HISTORY_PATH
                  let cached ← jsonLoads d
                  let xs ← pyIterList cached
                  let ids ← xs.mapM (fun kata => pyGetItem kata "id")
                  pure (Sum.inl ids))
                (fun e =>
                  if isJSONDecodeError e || isKeyError e then
                    some (pure (Sum.inr (cachedHistoryErrMsg e)))
                  else none)
            else
              pure (Sum.inl syncIds)
          match cacheRes with
          | .inr msg => pure msg
          | .inl completed_kata_ids => do
            let indexExists ← mexists INDEX_PATH
            if !indexExists then
              pure indexMissingMsg
            else do
              let idxRes : Sum PyVal String ←
                pyTry
                  (do
                    let d ← mread INDEX_PATH
                    let v ← jsonLoads d
                    pure (Sum.inl v))
                  (fun e =>
                    if isJSONDecodeError e then
                      some (pure (Sum.inr ("❌ Error al leer índice de katas: " ++ excStr e)))
                    else none)
              match idxRes with
              | .inr msg => pure msg
              | .inl full_kata_index => do
                let idxList ← pyIterList full_kata_index
                let available_katas ← availableKatas idxList completed_kata_ids
                match available_katas with
                | [] => pure allDoneMsg
                | a :: rest => do
                  let selected := listChoice (a :: rest) pick
                  let selId ← pyGetItem selected "id"
                  let kata_details := fetch_kata_details (pyDisplay selId) detailsOut
                  if pyIn (.pstr "error") kata_details then do
                    let nm ← pyGetItem selected "name"
                    let err ← pyGetItem kata_details "error"
                    pure (downloadErrMsg (pyDisplay nm) (pyDisplay err))
                  else
                    setup_exercise_environment kata_details "Recomendación Automática")
    (fun e =>
      if isKeyError e then
        some (pure ("❌ Error: Falta campo requerido en los datos: " ++ excStr e))
      else
        some (pure ("❌ Error inesperado en practice_python: " ++ excStr e)))

/-! ## Claim theorems -/

/-- A state with a valid config for user `alice`, a valid cached
history snapshot recording kata `k1` as completed, a valid index
holding katas `k1` and `k2`, and no pending I/O faults. -/
def c1State : St :=
  ⟨⟨[], [(CONFIG_PATH, .jsonVal (.pdict [("codewars_username", .pstr "alice")])),
         (HISTORY_PATH, .jsonVal (.plist [.pdict [("id", .pstr "k1"), ("name", .pstr "Old")]])),
         (INDEX_PATH, .jsonVal (.plist
           [.pdict [("id", .pstr "k1"), ("name", .pstr "One")],
            .pdict [("id", .pstr "k2"), ("name", .pstr "Two")]]))]⟩,
    []⟩

/-- The error value `fetch_user_completed` returns for user `alice`
on a timeout: `[{"error": "Timeout ..."}]`. -/
def aliceTimeoutPayload : PyVal :=
  errorList "Timeout al obtener katas completados de 'alice'. Intenta nuevamente."

/-- C1: the claim says that when the completed-history fetch fails,
`practice_python` falls back to the cached snapshot and candidate
selection proceeds.  The code does neither: `sync_history_internal`
tests `"error" in completed_katas_data` on a *list* `[{"error": ...}]`
(always false), so on a fetch timeout it overwrites the cached
snapshot with the error payload, the subsequent `kata["id"]` raises
`KeyError`, and `practice_python`'s cache read then aborts the whole
call with a cache-read error — starting from a state whose cache was
perfectly valid.  This contradicts the source's own docstrings
("fetch and cache user's completed katas", returning "kata IDs"),
whose intent the `if "error" in ...: return []` guard shows. -/
theorem practice_python_sync_failure_aborts_and_clobbers_cache :
    (practice_python .timeout .timeout 0 c1State).1 =
        .ok (cachedHistoryErrMsg (.keyError "id")) ∧
      getFile HISTORY_PATH (practice_python .timeout .timeout 0 c1State).2.fs.files =
        some (.jsonVal aliceTimeoutPayload) ∧
      getFile HISTORY_PATH c1State.fs.files =
        some (.jsonVal (.plist [.pdict [("id", .pstr "k1"), ("name", .pstr "Old")]])) := by
  refine ⟨rfl, rfl, rfl⟩

/-- C2: the claim says `update_progress` surfaces a completed-page
fetch error verbatim and only overwrites the snapshot on success.
Because `"error" in completed_katas_data` tests membership in a list,
the error branch never fires: on a fetch timeout the tool overwrites
the history snapshot with the error payload `[{"error": ...}]` and
reports a *successful* sync of 1 record. -/
theorem update_progress_fetch_error_reports_success_and_overwrites :
    (update_progress (some "alice") .timeout ⟨⟨[], []⟩, []⟩).1 = .ok (syncOkMsg 1) ∧
      getFile HISTORY_PATH
          (update_progress (some "alice") .timeout ⟨⟨[], []⟩, []⟩).2.fs.files =
        some (.jsonVal aliceTimeoutPayload) := by
  refine ⟨rfl, rfl⟩

/-- An alphanumeric character lowercases to a lowercase letter or a digit. -/
theorem alnum_toLower_lower_or_digit (c : Char) (h : c.isAlphanum = true) :
    c.toLower.isLower = true ∨ c.toLower.isDigit = true := by
  simp only [Char.isAlphanum, Char.isAlpha, Char.isUpper, Char.isLower, Char.isDigit,
    Bool.or_eq_true, Bool.and_eq_true, decide_eq_true_eq] at h
  have h2 : (65 ≤ c.toNat ∧ c.toNat ≤ 90) ∨ (97 ≤ c.toNat ∧ c.toNat ≤ 122) ∨
      (48 ≤ c.toNat ∧ c.toNat ≤ 57) := by
    rcases h with (⟨h1, h2⟩ | ⟨h1, h2⟩) | ⟨h1, h2⟩
    · exact Or.inl ⟨h1, h2⟩
    · exact Or.inr (Or.inl ⟨h1, h2⟩)
    · exact Or.inr (Or.inr ⟨h1, h2⟩)
  unfold Char.toLower
  rcases h2 with ⟨h1, h2⟩ | ⟨h1, h2⟩ | ⟨h1, h2⟩
  · rw [if_pos ⟨h1, h2⟩]
    left
    have hv : (Char.ofNat (c.toNat + 32)).toNat = c.toNat + 32 := by
      rw [Char.ofNat]
      split
      · rfl
      · next hbad => exact absurd (Or.inl (by omega)) hbad
    simp only [Char.isLower, Bool.and_eq_true, decide_eq_true_eq]
    constructor
    · show (97 : UInt32) ≤ (Char.ofNat (c.toNat + 32)).val
      show 97 ≤ (Char.ofNat (c.toNat + 32)).toNat
      omega
    · show (Char.ofNat (c.toNat + 32)).toNat ≤ 122
      omega
  · rw [if_neg (by omega)]
    left
    simp only [Char.isLower, Bool.and_eq_true, decide_eq_true_eq]
    exact ⟨h1, h2⟩
  · rw [if_neg (by omega)]
    right
    simp only [Char.isDigit, Bool.and_eq_true, decide_eq_true_eq]
    exact ⟨h1, h2⟩

theorem mem_pyStrip {c : Char} {l : List Char} (h : c ∈ pyStrip l) : c ∈ l := by
  unfold pyStrip at h
  rw [List.mem_reverse] at h
  have h2 := List.dropWhile_subset Char.isWhitespace h
  rw [List.mem_reverse] at h2
  exact List.dropWhile_subset Char.isWhitespace h2

/-- The head of a `dropWhile` does not satisfy the dropped predicate. -/
theorem head_dropWhile_false {p : Char → Bool} {l : List Char} {h : Char}
    (hh : (l.dropWhile p).head? = some h) : p h = false := by
  induction l with
  | nil => simp [List.dropWhile] at hh
  | cons c t ih =>
    rw [List.dropWhile] at hh
    by_cases hc : p c = true
    · rw [hc] at hh
      exact ih hh
    · rw [Bool.not_eq_true] at hc
      rw [hc] at hh
      simp at hh
      rw [← hh]
      exact hc

theorem suffix_getLast_eq {l1 l2 : List Char} {h : Char}
    (hs : l1 <:+ l2) (hh : l1.getLast? = some h) : l2.getLast? = some h := by
  obtain ⟨t, ht⟩ := hs
  subst ht
  rw [← List.head?_reverse] at hh ⊢
  rw [List.reverse_append]
  cases hrev : l1.reverse with
  | nil =>
    rw [hrev] at hh
    simp at hh
  | cons x xs =>
    rw [hrev] at hh
    simp at hh ⊢
    exact hh

/-- Stripping leaves no whitespace at the front: `.strip()` runs
before spaces become underscores, so no slug-boundary underscore is a
replaced space. -/
theorem pyStrip_head_not_ws {l : List Char} {h : Char}
    (hh : (pyStrip l).head? = some h) : h.isWhitespace = false := by
  unfold pyStrip at hh
  rw [List.head?_reverse] at hh
  have hs := List.dropWhile_suffix (l := (l.dropWhile Char.isWhitespace).reverse)
    Char.isWhitespace
  have h2 := suffix_getLast_eq hs hh
  rw [List.getLast?_reverse] at h2
  exact head_dropWhile_false h2

/-- Stripping leaves no whitespace at the back. -/
theorem pyStrip_getLast_not_ws {l : List Char} {h : Char}
    (hh : (pyStrip l).getLast? = some h) : h.isWhitespace = false := by
  unfold pyStrip at hh
  rw [List.getLast?_reverse] at hh
  exact head_dropWhile_false hh

/-- `toLower` maps nothing new onto `'_'` or `'-'`: a character whose
lowercase form is one of the separators already was that separator. -/
theorem toLower_eq_separator {h c : Char} (hc : c = '_' ∨ c = '-')
    (he : h.toLower = c) : h = c := by
  have hlow : h.toLower =
      if h.toNat ≥ 65 ∧ h.toNat ≤ 90 then Char.ofNat (h.toNat + 32) else h := rfl
  rw [hlow] at he
  by_cases hcond : h.toNat ≥ 65 ∧ h.toNat ≤ 90
  · rw [if_pos hcond] at he
    exfalso
    have hv : (Char.ofNat (h.toNat + 32)).toNat = h.toNat + 32 := by
      rw [Char.ofNat]
      split
      · rfl
      · next hbad => exact absurd (Or.inl (by omega)) hbad
    have h2 := congrArg Char.toNat he
    rw [hv] at h2
    rcases hc with hc | hc <;> subst hc
    · have h3 : ('_').toNat = 95 := by decide
      rw [h3] at h2
      omega
    · have h3 : ('-').toNat = 45 := by decide
      rw [h3] at h2
      omega
  · rw [if_neg hcond] at he
    exact he

/-- C6 (counterexample): the claim that the slug contains only
lowercase alphanumerics and underscores is false — the source retains
hyphens (`char in (' ', '-', '_')`), so `"a-b"` slugs to `"a-b"`. -/
theorem sanitize_folder_name_retains_hyphen :
    sanitize_folder_name "a-b" = "a-b" ∧
      ¬ (∀ c ∈ (sanitize_folder_name "a-b").data,
          c.isLower = true ∨ c.isDigit = true ∨ c = '_') := by
  refine ⟨by decide, by decide⟩

/-- C6 (amended): every character of the slug is a lowercase letter, a
digit, an underscore, or a hyphen (hyphens are retained by the code —
the only change the counterexample forces); the slug never starts or
ends with a separator artifact beyond trimming rules — leading and
trailing whitespace is stripped before spaces become underscores, so a
slug starts (ends) with `'_'` or `'-'` only when the stripped cleaned
title itself starts (ends) with that exact character; and slugging is
deterministic. -/
theorem sanitize_folder_name_amended_charset (name : String) :
    (∀ c ∈ (sanitize_folder_name name).data,
        c.isLower = true ∨ c.isDigit = true ∨ c = '_' ∨ c = '-') ∧
      (∀ c, (sanitize_folder_name name).data.head? = some c → (c = '_' ∨ c = '-') →
        (strippedChars name).head? = some c) ∧
      (∀ c, (sanitize_folder_name name).data.getLast? = some c → (c = '_' ∨ c = '-') →
        (strippedChars name).getLast? = some c) ∧
      (∀ other : String, name = other →
        sanitize_folder_name name = sanitize_folder_name other) := by
  have hdata : (sanitize_folder_name name).data =
      ((strippedChars name).map (fun d => if d == ' ' then '_' else d)).map
        Char.toLower := rfl
  refine ⟨?_, ?_, ?_, ?_⟩
  · intro c hc
    have hc2 : c ∈ ((pyStrip (name.data.filter
        (fun d => d.isAlphanum || d == ' ' || d == '-' || d == '_'))).map
          (fun d => if d == ' ' then '_' else d)).map Char.toLower := hc
    rw [List.mem_map] at hc2
    obtain ⟨d, hd, hdc⟩ := hc2
    rw [List.mem_map] at hd
    obtain ⟨e, he, hed⟩ := hd
    have he2 := mem_pyStrip he
    have hpred := List.of_mem_filter he2
    simp only [Bool.or_eq_true, beq_iff_eq] at hpred
    by_cases hsp : e = ' '
    · subst hsp
      simp only [if_pos (by decide : (' ' == ' ') = true)] at hed
      subst hed
      subst hdc
      right; right; left; decide
    · have hbe : (e == ' ') = false := by
        simp only [beq_eq_false_iff_ne, ne_eq]
        exact hsp
      rw [hbe] at hed
      simp only [Bool.false_eq_true, if_false] at hed
      subst hed
      subst hdc
      rcases hpred with ((halnum | hsp2) | hhy) | hun
      · rcases alnum_toLower_lower_or_digit e halnum with h | h
        · exact Or.inl h
        · exact Or.inr (Or.inl h)
      · exact absurd hsp2 hsp
      · subst hhy
        right; right; right; decide
      · subst hun
        right; right; left; decide
  · intro c hh hc
    rw [hdata, List.head?_map, List.head?_map] at hh
    cases hs : (strippedChars name).head? with
    | none =>
      rw [hs] at hh
      simp at hh
    | some h0 =>
      rw [hs] at hh
      simp at hh
      have hws : h0.isWhitespace = false := pyStrip_head_not_ws hs
      have hne : ¬ (h0 = ' ') := by
        intro hsp
        rw [hsp] at hws
        simp [Char.isWhitespace] at hws
      rw [if_neg hne] at hh
      exact congrArg some (toLower_eq_separator hc hh)
  · intro c hh hc
    rw [hdata, List.getLast?_map, List.getLast?_map] at hh
    cases hs : (strippedChars name).getLast? with
    | none =>
      rw [hs] at hh
      simp at hh
    | some h0 =>
      rw [hs] at hh
      simp at hh
      have hws : h0.isWhitespace = false := pyStrip_getLast_not_ws hs
      have hne : ¬ (h0 = ' ') := by
        intro hsp
        rw [hsp] at hws
        simp [Char.isWhitespace] at hws
      rw [if_neg hne] at hh
      exact congrArg some (toLower_eq_separator hc hh)
  · intro other hother
    rw [hother]

/-- Witness for C6 (amended): charset and determinism at the title
`"A b-C"`; boundary conjuncts at `"_a-"`, whose slug `"_a-"` starts
with `'_'` and ends with `'-'` exactly because the stripped cleaned
title does. -/
theorem sanitize_folder_name_amended_charset_witness :
    ('a'.isLower = true ∨ 'a'.isDigit = true ∨ 'a' = '_' ∨ 'a' = '-') ∧
      (strippedChars "_a-").head? = some '_' ∧
      (strippedChars "_a-").getLast? = some '-' ∧
      sanitize_folder_name "A b-C" = sanitize_folder_name "A b-C" :=
  ⟨(sanitize_folder_name_amended_charset "A b-C").1 'a' (by decide),
   (sanitize_folder_name_amended_charset "_a-").2.1 '_' (by decide) (Or.inl rfl),
   (sanitize_folder_name_amended_charset "_a-").2.2.1 '-' (by decide) (Or.inr rfl),
   (sanitize_folder_name_amended_charset "A b-C").2.2.2 "A b-C" rfl⟩

/-- C7: `generate_function_name` prefixes `kata_` exactly when the
joined snake-case result starts with a digit (`snakeCaseName` is the
split-on-non-alphanumeric-runs, lowercase, underscore-join transform;
an empty result never starts with a digit and gets no prefix). -/
theorem generate_function_name_kata_prefix_iff (name : String) :
    (((snakeCaseName name).data.headD ' ').isDigit = true →
        generate_function_name name = "kata_" ++ snakeCaseName name) ∧
      (((snakeCaseName name).data.headD ' ').isDigit = false →
        generate_function_name name = snakeCaseName name) := by
  constructor
  · intro hdig
    have hne : decide (snakeCaseName name ≠ "") = true := by
      rcases eq_or_ne (snakeCaseName name) "" with h | h
      · rw [h] at hdig
        exact absurd hdig (by decide)
      · simp [h]
    rw [List.headD_eq_head?] at hdig
    simp [generate_function_name, hne, hdig]
  · intro hdig
    rw [List.headD_eq_head?] at hdig
    simp [generate_function_name, hdig]

/-- Witness for C7 at `"123 Numbers"` (digit case) and
`"Valid Braces"` (no-prefix case). -/
theorem generate_function_name_kata_prefix_iff_witness :
    generate_function_name "123 Numbers" = "kata_" ++ snakeCaseName "123 Numbers" ∧
      generate_function_name "Valid Braces" = snakeCaseName "Valid Braces" :=
  ⟨(generate_function_name_kata_prefix_iff "123 Numbers").1 (by decide),
   (generate_function_name_kata_prefix_iff "Valid Braces").2 (by decide)⟩

theorem str_ne_of_take {n : Nat} {s t : String}
    (h : s.data.take n ≠ t.data.take n) : s ≠ t :=
  fun he => h (by rw [he])

theorem errorDict_inj {a b : String} (h : errorDict a = errorDict b) : a = b := by
  simpa [errorDict] using h

theorem errorList_inj {a b : String} (h : errorList a = errorList b) : a = b := by
  simpa [errorList] using h

/-- C8: in the catalog client, a 404 maps to a not-found error value,
any other non-2xx status maps to the generic HTTP error value carrying
the status and body text, a timeout maps to a timeout error value, and
the three error values are pairwise distinct for all parameter values.
The embedded fetch functions are total Lean functions of the HTTP
outcome — the source catches every exception class and returns the
error value instead of raising. -/
theorem catalog_client_error_mapping (id u text : String) (page status : Nat)
    (body : PyVal) (h404 : status ≠ 404) (h2xx : is2xx status = false) :
    fetch_kata_details id (.response 404 body text) =
        errorDict ("Ejercicio '" ++ id ++ "' no encontrado.") ∧
      fetch_kata_details id (.response status body text) =
        errorDict (httpErrorMsg status text) ∧
      fetch_kata_details id .timeout =
        errorDict ("Timeout al obtener detalles del kata '" ++ id ++
          "'. Intenta nuevamente.") ∧
      fetch_user_completed u page (.response 404 body text) =
        errorList ("Usuario '" ++ u ++ "' no encontrado.") ∧
      fetch_user_completed u page (.response status body text) =
        errorList (httpErrorMsg status text) ∧
      fetch_user_completed u page .timeout =
        errorList ("Timeout al obtener katas completados de '" ++ u ++
          "'. Intenta nuevamente.") ∧
      fetch_kata_details id (.response 404 body text) ≠
        fetch_kata_details id (.response status body text) ∧
      fetch_kata_details id (.response 404 body text) ≠ fetch_kata_details id .timeout ∧
      fetch_kata_details id .timeout ≠ fetch_kata_details id (.response status body text) ∧
      fetch_user_completed u page (.response 404 body text) ≠
        fetch_user_completed u page (.response status body text) ∧
      fetch_user_completed u page (.response 404 body text) ≠
        fetch_user_completed u page .timeout ∧
      fetch_user_completed u page .timeout ≠
        fetch_user_completed u page (.response status body text) := by
  have hb : (status == 404) = false := by
    simp only [beq_eq_false_iff_ne, ne_eq]
    exact h404
  have d1 : fetch_kata_details id (.response 404 body text) =
      errorDict ("Ejercicio '" ++ id ++ "' no encontrado.") := by
    simp [fetch_kata_details]
  have d2 : fetch_kata_details id (.response status body text) =
      errorDict (httpErrorMsg status text) := by
    simp [fetch_kata_details, hb, h2xx]
  have d3 : fetch_kata_details id .timeout =
      errorDict ("Timeout al obtener detalles del kata '" ++ id ++
        "'. Intenta nuevamente.") := by
    simp [fetch_kata_details]
  have l1 : fetch_user_completed u page (.response 404 body text) =
      errorList ("Usuario '" ++ u ++ "' no encontrado.") := by
    simp [fetch_user_completed]
  have l2 : fetch_user_completed u page (.response status body text) =
      errorList (httpErrorMsg status text) := by
    simp [fetch_user_completed, hb, h2xx]
  have l3 : fetch_user_completed u page .timeout =
      errorList ("Timeout al obtener katas completados de '" ++ u ++
        "'. Intenta nuevamente.") := by
    simp [fetch_user_completed]
  have m12 : ("Ejercicio '" ++ id ++ "' no encontrado.") ≠ httpErrorMsg status text := by
    refine str_ne_of_take (n := 2) ?_
    have e1 : ("Ejercicio '" ++ id ++ "' no encontrado.").data.take 2 = ['E', 'j'] := rfl
    have e2 : (httpErrorMsg status text).data.take 2 = ['E', 'r'] := rfl
    rw [e1, e2]
    decide
  have m13 : ("Ejercicio '" ++ id ++ "' no encontrado.") ≠
      ("Timeout al obtener detalles del kata '" ++ id ++ "'. Intenta nuevamente.") := by
    refine str_ne_of_take (n := 1) ?_
    have e1 : ("Ejercicio '" ++ id ++ "' no encontrado.").data.take 1 = ['E'] := rfl
    have e2 : ("Timeout al obtener detalles del kata '" ++ id ++
        "'. Intenta nuevamente.").data.take 1 = ['T'] := rfl
    rw [e1, e2]
    decide
  have m32 : ("Timeout al obtener detalles del kata '" ++ id ++ "'. Intenta nuevamente.") ≠
      httpErrorMsg status text := by
    refine str_ne_of_take (n := 1) ?_
    have e1 : ("Timeout al obtener detalles del kata '" ++ id ++
        "'. Intenta nuevamente.").data.take 1 = ['T'] := rfl
    have e2 : (httpErrorMsg status text).data.take 1 = ['E'] := rfl
    rw [e1, e2]
    decide
  have n12 : ("Usuario '" ++ u ++ "' no encontrado.") ≠ httpErrorMsg status text := by
    refine str_ne_of_take (n := 1) ?_
    have e1 : ("Usuario '" ++ u ++ "' no encontrado.").data.take 1 = ['U'] := rfl
    have e2 : (httpErrorMsg status text).data.take 1 = ['E'] := rfl
    rw [e1, e2]
    decide
  have n13 : ("Usuario '" ++ u ++ "' no encontrado.") ≠
      ("Timeout al obtener katas completados de '" ++ u ++ "'. Intenta nuevamente.") := by
    refine str_ne_of_take (n := 1) ?_
    have e1 : ("Usuario '" ++ u ++ "' no encontrado.").data.take 1 = ['U'] := rfl
    have e2 : ("Timeout al obtener katas completados de '" ++ u ++
        "'. Intenta nuevamente.").data.take 1 = ['T'] := rfl
    rw [e1, e2]
    decide
  have n32 : ("Timeout al obtener katas completados de '" ++ u ++
      "'. Intenta nuevamente.") ≠ httpErrorMsg status text := by
    refine str_ne_of_take (n := 1) ?_
    have e1 : ("Timeout al obtener katas completados de '" ++ u ++
        "'. Intenta nuevamente.").data.take 1 = ['T'] := rfl
    have e2 : (httpErrorMsg status text).data.take 1 = ['E'] := rfl
    rw [e1, e2]
    decide
  refine ⟨d1, d2, d3, l1, l2, l3, ?_, ?_, ?_, ?_, ?_, ?_⟩
  · rw [d1, d2]
    exact fun h => m12 (errorDict_inj h)
  · rw [d1, d3]
    exact fun h => m13 (errorDict_inj h)
  · rw [d3, d2]
    exact fun h => m32 (errorDict_inj h)
  · rw [l1, l2]
    exact fun h => n12 (errorList_inj h)
  · rw [l1, l3]
    exact fun h => n13 (errorList_inj h)
  · rw [l3, l2]
    exact fun h => n32 (errorList_inj h)

/-- Witness for C8 at id `"abc"`, user `"bob"`, status 500, body text `"oops"`. -/
theorem catalog_client_error_mapping_witness :
    fetch_kata_details "abc" (.response 404 (.pdict []) "oops") ≠
      fetch_kata_details "abc" (.response 500 (.pdict []) "oops") :=
  (catalog_client_error_mapping "abc" "bob" "oops" 0 500 (.pdict [])
    (by decide) (by decide)).2.2.2.2.2.2.1

theorem reSearchKata_eq_none {l : List Char}
    (h : ∀ k, matchAlternativesAt (l.drop k) = none) : reSearchKata l = none := by
  induction l with
  | nil => rfl
  | cons c rest ih =>
    have h0 := h 0
    rw [List.drop_zero] at h0
    rw [reSearchKata, h0]
    exact ih (fun k => by
      have := h (k + 1)
      rwa [List.drop_succ_cons] at this)

theorem reSearchKata_leftmost {k : Nat} {l r : List Char}
    (hm : matchAlternativesAt (l.drop k) = some r)
    (hnone : ∀ j, j < k → matchAlternativesAt (l.drop j) = none) :
    reSearchKata l = some r := by
  induction k generalizing l with
  | zero =>
    rw [List.drop_zero] at hm
    cases l with
    | nil =>
      rw [show matchAlternativesAt [] = (none : Option (List Char)) from rfl] at hm
      cases hm
    | cons c rest => rw [reSearchKata, hm]
  | succ k ih =>
    cases l with
    | nil =>
      rw [List.drop_nil] at hm
      rw [show matchAlternativesAt [] = (none : Option (List Char)) from rfl] at hm
      cases hm
    | cons c rest =>
      have h0 := hnone 0 (Nat.succ_pos k)
      rw [List.drop_zero] at h0
      rw [reSearchKata, h0]
      rw [List.drop_succ_cons] at hm
      exact ih hm (fun j hj => by
        have := hnone (j + 1) (by omega)
        rwa [List.drop_succ_cons] at this)

/-- The C9 counterexample input: a bare 24-hex-character string
followed by a `kata/<hex>` segment. -/
def c9Input : String := "aaaaaaaaaaaaaaaaaaaaaaaa kata/bc"

/-- C9 (counterexample): the claim gives the `kata/<hex>` form priority
over a bare 24-character hex string whenever the input contains one,
but `re.search` uses leftmost-match semantics: here the input contains
the segment `kata/bc` (the alternation matches at offset 25 capturing
`bc`), yet the identifier extracted is the earlier bare 24-hex run,
not `bc`. -/
theorem extract_kata_id_leftmost_counterexample :
    extract_kata_id c9Input = "aaaaaaaaaaaaaaaaaaaaaaaa" ∧
      matchAlternativesAt (c9Input.data.drop 25) = some ['b', 'c'] ∧
      extract_kata_id c9Input ≠ "bc" := by
  refine ⟨rfl, rfl, by decide⟩

/-- C9 (amended): the identifier `import_kata` passes to the detail
fetch is the hex captured by the *leftmost* match of the pattern
`kata/([a-f0-9]+)|([a-f0-9]{24})` — at each position the `kata/` +
hex-run alternative is tried before the bare 24-hex alternative — and,
when no position of the input matches either alternative, the
whitespace-trimmed input verbatim. -/
theorem extract_kata_id_amended_leftmost (input : String) :
    ((∀ k, matchAlternativesAt (input.data.drop k) = none) →
        extract_kata_id input = String.mk (pyStrip input.data)) ∧
      (∀ k r, matchAlternativesAt (input.data.drop k) = some r →
        (∀ j, j < k → matchAlternativesAt (input.data.drop j) = none) →
        extract_kata_id input = String.mk r) ∧
      (∀ rest, input.data = 'k' :: 'a' :: 't' :: 'a' :: '/' :: rest →
        (rest.takeWhile isHexLower).isEmpty = false →
        extract_kata_id input = String.mk (rest.takeWhile isHexLower)) := by
  refine ⟨?_, ?_, ?_⟩
  · intro h
    unfold extract_kata_id
    rw [reSearchKata_eq_none h]
  · intro k r hm hnone
    unfold extract_kata_id
    rw [reSearchKata_leftmost hm hnone]
  · intro rest hdata hrun
    have hm : matchAlternativesAt (input.data.drop 0) = some (rest.takeWhile isHexLower) := by
      rw [List.drop_zero, hdata]
      unfold matchAlternativesAt
      simp only [hrun, Bool.false_eq_true, if_false]
    unfold extract_kata_id
    rw [reSearchKata_leftmost hm (fun j hj => absurd hj (by omega))]

/-- Witness for C9 (amended) at the input `"kata/ff"` (leftmost match
at position 0, capturing `ff`). -/
theorem extract_kata_id_amended_leftmost_witness :
    extract_kata_id "kata/ff" = String.mk ['f', 'f'] :=
  (extract_kata_id_amended_leftmost "kata/ff").2.1 0 ['f', 'f'] (by decide)
    (fun j hj => absurd hj (by omega))

/-- A `try/except` whose handler maps *every* exception to a plain
returned message never lets an exception escape. -/
theorem pyTry_safe (body : M String) (handler : PyExc → Option (M String))
    (hh : ∀ e, ∃ msg, handler e = some (pure msg)) (st : St) :
    ∃ msg st2, pyTry body handler st = (Except.ok msg, st2) := by
  cases hbody : body st with
  | mk r st2 =>
    cases r with
    | ok a =>
      refine ⟨a, st2, ?_⟩
      unfold pyTry
      rw [hbody]
    | error e =>
      obtain ⟨msg, hmsg⟩ := hh e
      refine ⟨msg, st2, ?_⟩
      unfold pyTry
      rw [hbody]
      dsimp only
      rw [hmsg]
      rfl

/-- C5: every invocation of each of the three tools returns a string;
no modelled Python exception (corrupt config JSON, fetch-layer
failures, filesystem `IOError` faults from the oracle, missing
dictionary keys, type errors) escapes — each tool's outermost
`except` chain ends in a catch-all that renders the failure into the
returned message.  Quantified over every filesystem state, fault
oracle, HTTP outcome and argument. -/
theorem tools_never_raise (username : Option String) (url_or_id : String)
    (out1 out2 : HttpOutcome) (pick : Nat) (st : St) :
    (∃ msg st2, update_progress username out1 st = (Except.ok msg, st2)) ∧
      (∃ msg st2, import_kata url_or_id out1 st = (Except.ok msg, st2)) ∧
      (∃ msg st2, practice_python out1 out2 pick st = (Except.ok msg, st2)) := by
  refine ⟨?_, ?_, ?_⟩
  · unfold update_progress
    apply pyTry_safe
    intro e
    dsimp only
    split
    · exact ⟨_, rfl⟩
    · exact ⟨_, rfl⟩
  · unfold import_kata
    apply pyTry_safe
    intro e
    dsimp only
    split
    · exact ⟨_, rfl⟩
    · exact ⟨_, rfl⟩
  · unfold practice_python
    apply pyTry_safe
    intro e
    dsimp only
    split
    · exact ⟨_, rfl⟩
    · exact ⟨_, rfl⟩

/-! ## Filesystem and monad run lemmas -/

theorem getFile_setFile_same (p : List String) (d : FileData)
    (files : List (List String × FileData)) :
    getFile p (setFile p d files) = some d := by
  induction files with
  | nil => simp [setFile, getFile]
  | cons hd tl ih =>
    obtain ⟨q, d2⟩ := hd
    by_cases h : q = p
    · subst h
      simp [setFile, getFile]
    · simp [setFile, getFile, h, ih]

theorem getFile_setFile_ne {q p : List String} (hqp : q ≠ p) (d : FileData)
    (files : List (List String × FileData)) :
    getFile q (setFile p d files) = getFile q files := by
  induction files with
  | nil =>
    simp [setFile, getFile]
    intro h
    exact absurd h.symm hqp
  | cons hd tl ih =>
    obtain ⟨k, d2⟩ := hd
    by_cases h : k = p
    · subst h
      simp [setFile, getFile, Ne.symm hqp]
    · simp [setFile, getFile, h, ih]

theorem append_singleton_ne {p : List String} {a b : String} (h : a ≠ b) :
    p ++ [a] ≠ p ++ [b] := by
  intro he
  exact h (by simpa using List.append_cancel_left he)

theorem contains_after_addDir (l : List (List String)) (p : List String) :
    (if l.contains p then l else p :: l).contains p = true := by
  by_cases h : l.contains p = true
  · rw [if_pos h]
    exact h
  · rw [if_neg h]
    simp [List.contains_cons]

theorem mbind_run_ok {α β : Type} {m : M α} {f : α → M β} {st st2 : St} {a : α}
    (h : m st = (Except.ok a, st2)) : mbind m f st = f a st2 := by
  unfold mbind
  rw [h]

theorem mbind_run_err {α β : Type} {m : M α} {f : α → M β} {st st2 : St} {e : PyExc}
    (h : m st = (Except.error e, st2)) : mbind m f st = (Except.error e, st2) := by
  unfold mbind
  rw [h]

theorem bind_eq_mbind {α β : Type} (m : M α) (f : α → M β) : m >>= f = mbind m f := rfl

theorem pure_eq_mret {α : Type} (a : α) : (pure a : M α) = mret a := rfl

theorem mret_run {α : Type} (a : α) (st : St) : mret a st = (Except.ok a, st) := rfl

/-- C10: when the details dict has `name` but lacks `url` or
`description`, `setup_exercise_environment` returns the missing-field
error message naming the absent key — and the exercise folder has
already been created by then (the `mkdir` precedes the field
accesses), so the error return does not leave the filesystem
untouched. -/
theorem setup_missing_field_error_after_mkdir
    (fields rfields : List (String × PyVal)) (origin n rn key : String) (fs : FS)
    (hname : lookupField "name" fields = some (.pstr n))
    (hrank : lookupField "rank" fields = some (.pdict rfields))
    (hrname : lookupField "name" rfields = some (.pstr rn))
    (hmiss : (lookupField "url" fields = none ∧ key = "url") ∨
      (∃ uv, lookupField "url" fields = some uv ∧
        lookupField "description" fields = none ∧ key = "description")) :
    (setup_exercise_environment (.pdict fields) origin ⟨fs, []⟩).1 =
        Except.ok (missingFieldMsg (.keyError key)) ∧
      (setup_exercise_environment (.pdict fields) origin ⟨fs, []⟩).2.fs.dirs.contains
        (EXERCISES_DIR ++ [String.mk (rn.data.filter (fun c => c != ' ')) ++
          "_python_" ++ sanitize_folder_name n]) = true := by
  have hrun : setup_exercise_environment (.pdict fields) origin ⟨fs, []⟩ =
      (Except.ok (missingFieldMsg (.keyError key)),
        ⟨⟨(let folder := EXERCISES_DIR ++ [String.mk (rn.data.filter (fun c => c != ' ')) ++
            "_python_" ++ sanitize_folder_name n];
           if fs.dirs.contains folder then fs.dirs else folder :: fs.dirs),
          fs.files⟩, []⟩) := by
    rcases hmiss with ⟨hurl, hkey⟩ | ⟨uv, hurl, hdesc, hkey⟩
    · subst hkey
      simp only [setup_exercise_environment, pyTry, bind_eq_mbind, pure_eq_mret, mbind, mret,
        mraise, mmkdir, mwrite, mexists, ioStep, pyGetItem, pyAsStr, hname, hrank, hrname,
        hurl, Option.getD, isKeyError, missingFieldMsg, excStr, if_true]
    · subst hkey
      simp only [setup_exercise_environment, pyTry, bind_eq_mbind, pure_eq_mret, mbind, mret,
        mraise, mmkdir, mwrite, mexists, ioStep, pyGetItem, pyAsStr, hname, hrank, hrname,
        hurl, hdesc, Option.getD, isKeyError, missingFieldMsg, excStr, if_true]
  refine ⟨?_, ?_⟩
  · rw [hrun]
  · rw [hrun]
    exact contains_after_addDir fs.dirs _

/-- Witness for C10: details with `name` and `rank` but no `url`,
against an empty filesystem. -/
theorem setup_missing_field_error_after_mkdir_witness :
    (setup_exercise_environment
        (.pdict [("name", .pstr "Sum Array"), ("rank", .pdict [("name", .pstr "6 kyu")])])
        "Importación Manual" ⟨⟨[], []⟩, []⟩).1 =
      Except.ok (missingFieldMsg (.keyError "url")) :=
  (setup_missing_field_error_after_mkdir
    [("name", .pstr "Sum Array"), ("rank", .pdict [("name", .pstr "6 kyu")])]
    [("name", .pstr "6 kyu")] "Importación Manual" "Sum Array" "6 kyu" "url" ⟨[], []⟩
    rfl rfl rfl (Or.inl ⟨rfl, rfl⟩)).1

theorem append_singleton_ne_self (p : List String) (a : String) : p ++ [a] ≠ p := by
  intro h
  have := congrArg List.length h
  simp at this

theorem contains_addDir_of_ne {q p : List String} (h : q ≠ p) (l : List (List String)) :
    (if l.contains p then l else p :: l).contains q = l.contains q := by
  by_cases hc : l.contains p = true
  · rw [if_pos hc]
  · rw [if_neg hc]
    simp [List.contains_cons, h]

/-- C3: for every call of the materializer on well-formed details
(name/url/description strings, rank dict with a string name) and any
filesystem: the description file `README.md` is always (re)written to
the content derived from the supplied details; an existing stub
`solution.py` is byte-for-byte unchanged; and when no stub exists at
that path, one is created with the generated template. -/
theorem setup_preserves_stub_and_rewrites_readme
    (fields rfields : List (String × PyVal)) (origin n u d rn : String) (fs : FS)
    (hname : lookupField "name" fields = some (.pstr n))
    (hurl : lookupField "url" fields = some (.pstr u))
    (hdesc : lookupField "description" fields = some (.pstr d))
    (hrank : lookupField "rank" fields = some (.pdict rfields))
    (hrname : lookupField "name" rfields = some (.pstr rn)) :
    getFile ((EXERCISES_DIR ++ [String.mk (rn.data.filter (fun c => c != ' ')) ++
          "_python_" ++ sanitize_folder_name n]) ++ ["README.md"])
        (setup_exercise_environment (.pdict fields) origin ⟨fs, []⟩).2.fs.files =
      some (.text (readmeContent n (String.mk (rn.data.filter (fun c => c != ' '))) u d)) ∧
      (∀ c, getFile ((EXERCISES_DIR ++ [String.mk (rn.data.filter (fun c => c != ' ')) ++
            "_python_" ++ sanitize_folder_name n]) ++ ["solution.py"]) fs.files = some c →
        getFile ((EXERCISES_DIR ++ [String.mk (rn.data.filter (fun c => c != ' ')) ++
            "_python_" ++ sanitize_folder_name n]) ++ ["solution.py"])
          (setup_exercise_environment (.pdict fields) origin ⟨fs, []⟩).2.fs.files = some c) ∧
      (fs.exists ((EXERCISES_DIR ++ [String.mk (rn.data.filter (fun c => c != ' ')) ++
            "_python_" ++ sanitize_folder_name n]) ++ ["solution.py"]) = false →
        getFile ((EXERCISES_DIR ++ [String.mk (rn.data.filter (fun c => c != ' ')) ++
            "_python_" ++ sanitize_folder_name n]) ++ ["solution.py"])
          (setup_exercise_environment (.pdict fields) origin ⟨fs, []⟩).2.fs.files =
          some (.text (solutionTemplate n (String.mk (rn.data.filter (fun c => c != ' ')))
            u (generate_function_name n)))) := by
  have hne_rs : ((EXERCISES_DIR ++ [String.mk (rn.data.filter (fun c => c != ' ')) ++
      "_python_" ++ sanitize_folder_name n]) ++ ["README.md"]) ≠
      ((EXERCISES_DIR ++ [String.mk (rn.data.filter (fun c => c != ' ')) ++
        "_python_" ++ sanitize_folder_name n]) ++ ["solution.py"]) :=
    append_singleton_ne (by decide)
  have hne_sr : ((EXERCISES_DIR ++ [String.mk (rn.data.filter (fun c => c != ' ')) ++
      "_python_" ++ sanitize_folder_name n]) ++ ["solution.py"]) ≠
      ((EXERCISES_DIR ++ [String.mk (rn.data.filter (fun c => c != ' ')) ++
        "_python_" ++ sanitize_folder_name n]) ++ ["README.md"]) :=
    append_singleton_ne (by decide)
  have hrun : ∀ b : Bool,
      ((getFile ((EXERCISES_DIR ++ [String.mk (rn.data.filter (fun c => c != ' ')) ++
            "_python_" ++ sanitize_folder_name n]) ++ ["solution.py"])
          (setFile ((EXERCISES_DIR ++ [String.mk (rn.data.filter (fun c => c != ' ')) ++
              "_python_" ++ sanitize_folder_name n]) ++ ["README.md"])
            (.text (readmeContent n (String.mk (rn.data.filter (fun c => c != ' '))) u d))
            fs.files)).isSome ||
        (if fs.dirs.contains (EXERCISES_DIR ++ [String.mk (rn.data.filter (fun c => c != ' ')) ++
            "_python_" ++ sanitize_folder_name n]) then fs.dirs
         else (EXERCISES_DIR ++ [String.mk (rn.data.filter (fun c => c != ' ')) ++
            "_python_" ++ sanitize_folder_name n]) :: fs.dirs).contains
          ((EXERCISES_DIR ++ [String.mk (rn.data.filter (fun c => c != ' ')) ++
            "_python_" ++ sanitize_folder_name n]) ++ ["solution.py"])) = b →
      setup_exercise_environment (.pdict fields) origin ⟨fs, []⟩ =
        (Except.ok (setupSuccessMsg origin n
            (EXERCISES_DIR ++ [String.mk (rn.data.filter (fun c => c != ' ')) ++
              "_python_" ++ sanitize_folder_name n]) (generate_function_name n)),
          ⟨⟨(if fs.dirs.contains (EXERCISES_DIR ++
                [String.mk (rn.data.filter (fun c => c != ' ')) ++
                "_python_" ++ sanitize_folder_name n]) then fs.dirs
             else (EXERCISES_DIR ++ [String.mk (rn.data.filter (fun c => c != ' ')) ++
                "_python_" ++ sanitize_folder_name n]) :: fs.dirs),
            (if b then
              setFile ((EXERCISES_DIR ++ [String.mk (rn.data.filter (fun c => c != ' ')) ++
                  "_python_" ++ sanitize_folder_name n]) ++ ["README.md"])
                (.text (readmeContent n (String.mk (rn.data.filter (fun c => c != ' '))) u d))
                fs.files
             else
              setFile ((EXERCISES_DIR ++ [String.mk (rn.data.filter (fun c => c != ' ')) ++
                  "_python_" ++ sanitize_folder_name n]) ++ ["solution.py"])
                (.text (solutionTemplate n (String.mk (rn.data.filter (fun c => c != ' ')))
                  u (generate_function_name n)))
                (setFile ((EXERCISES_DIR ++ [String.mk (rn.data.filter (fun c => c != ' ')) ++
                    "_python_" ++ sanitize_folder_name n]) ++ ["README.md"])
                  (.text (readmeContent n (String.mk (rn.data.filter (fun c => c != ' '))) u d))
                  fs.files))⟩, []⟩) := by
    intro b hex
    cases b <;>
      simp only [setup_exercise_environment, pyTry, bind_eq_mbind, pure_eq_mret, mbind, mret,
        mraise, mmkdir, mwrite, mexists, ioStep, pyGetItem, pyAsStr, pyDisplay, hname, hurl,
        hdesc, hrank, hrname, Option.getD, FS.exists, hex, Bool.not_false, Bool.not_true,
        Bool.false_eq_true, if_true, if_false]
  refine ⟨?_, ?_, ?_⟩
  · rcases hb : ((getFile ((EXERCISES_DIR ++ [String.mk (rn.data.filter (fun c => c != ' ')) ++
          "_python_" ++ sanitize_folder_name n]) ++ ["solution.py"])
        (setFile ((EXERCISES_DIR ++ [String.mk (rn.data.filter (fun c => c != ' ')) ++
            "_python_" ++ sanitize_folder_name n]) ++ ["README.md"])
          (.text (readmeContent n (String.mk (rn.data.filter (fun c => c != ' '))) u d))
          fs.files)).isSome ||
      (if fs.dirs.contains (EXERCISES_DIR ++ [String.mk (rn.data.filter (fun c => c != ' ')) ++
          "_python_" ++ sanitize_folder_name n]) then fs.dirs
       else (EXERCISES_DIR ++ [String.mk (rn.data.filter (fun c => c != ' ')) ++
          "_python_" ++ sanitize_folder_name n]) :: fs.dirs).contains
        ((EXERCISES_DIR ++ [String.mk (rn.data.filter (fun c => c != ' ')) ++
          "_python_" ++ sanitize_folder_name n]) ++ ["solution.py"])) with hfalse | htrue
    · rw [hrun false hb]
      exact (getFile_setFile_ne hne_rs _ _).trans (getFile_setFile_same _ _ _)
    · rw [hrun true hb]
      exact getFile_setFile_same _ _ _
  · intro c hc
    have h1 : getFile ((EXERCISES_DIR ++ [String.mk (rn.data.filter (fun c => c != ' ')) ++
        "_python_" ++ sanitize_folder_name n]) ++ ["solution.py"])
        (setFile ((EXERCISES_DIR ++ [String.mk (rn.data.filter (fun c => c != ' ')) ++
            "_python_" ++ sanitize_folder_name n]) ++ ["README.md"])
          (.text (readmeContent n (String.mk (rn.data.filter (fun c => c != ' '))) u d))
          fs.files) = some c := by
      rw [getFile_setFile_ne hne_sr]
      exact hc
    have hb : ((getFile ((EXERCISES_DIR ++ [String.mk (rn.data.filter (fun c => c != ' ')) ++
            "_python_" ++ sanitize_folder_name n]) ++ ["solution.py"])
          (setFile ((EXERCISES_DIR ++ [String.mk (rn.data.filter (fun c => c != ' ')) ++
              "_python_" ++ sanitize_folder_name n]) ++ ["README.md"])
            (.text (readmeContent n (String.mk (rn.data.filter (fun c => c != ' '))) u d))
            fs.files)).isSome ||
        (if fs.dirs.contains (EXERCISES_DIR ++ [String.mk (rn.data.filter (fun c => c != ' ')) ++
            "_python_" ++ sanitize_folder_name n]) then fs.dirs
         else (EXERCISES_DIR ++ [String.mk (rn.data.filter (fun c => c != ' ')) ++
            "_python_" ++ sanitize_folder_name n]) :: fs.dirs).contains
          ((EXERCISES_DIR ++ [String.mk (rn.data.filter (fun c => c != ' ')) ++
            "_python_" ++ sanitize_folder_name n]) ++ ["solution.py"])) = true := by
      rw [h1]
      simp
    rw [hrun true hb]
    exact h1
  · intro hnostub
    have hparts : (getFile ((EXERCISES_DIR ++
        [String.mk (rn.data.filter (fun c => c != ' ')) ++
          "_python_" ++ sanitize_folder_name n]) ++ ["solution.py"]) fs.files) = none ∧
        fs.dirs.contains ((EXERCISES_DIR ++ [String.mk (rn.data.filter (fun c => c != ' ')) ++
          "_python_" ++ sanitize_folder_name n]) ++ ["solution.py"]) = false := by
      unfold FS.exists at hnostub
      rw [Bool.or_eq_false_iff] at hnostub
      refine ⟨?_, hnostub.2⟩
      rcases hg : getFile ((EXERCISES_DIR ++ [String.mk (rn.data.filter (fun c => c != ' ')) ++
          "_python_" ++ sanitize_folder_name n]) ++ ["solution.py"]) fs.files with _ | v
      · rfl
      · rw [hg] at hnostub
        simp at hnostub
    have hb : ((getFile ((EXERCISES_DIR ++ [String.mk (rn.data.filter (fun c => c != ' ')) ++
            "_python_" ++ sanitize_folder_name n]) ++ ["solution.py"])
          (setFile ((EXERCISES_DIR ++ [String.mk (rn.data.filter (fun c => c != ' ')) ++
              "_python_" ++ sanitize_folder_name n]) ++ ["README.md"])
            (.text (readmeContent n (String.mk (rn.data.filter (fun c => c != ' '))) u d))
            fs.files)).isSome ||
        (if fs.dirs.contains (EXERCISES_DIR ++ [String.mk (rn.data.filter (fun c => c != ' ')) ++
            "_python_" ++ sanitize_folder_name n]) then fs.dirs
         else (EXERCISES_DIR ++ [String.mk (rn.data.filter (fun c => c != ' ')) ++
            "_python_" ++ sanitize_folder_name n]) :: fs.dirs).contains
          ((EXERCISES_DIR ++ [String.mk (rn.data.filter (fun c => c != ' ')) ++
            "_python_" ++ sanitize_folder_name n]) ++ ["solution.py"])) = false := by
      rw [getFile_setFile_ne hne_sr, hparts.1,
        contains_addDir_of_ne (append_singleton_ne_self _ _), hparts.2]
      rfl
    rw [hrun false hb]
    exact getFile_setFile_same _ _ _

/-- Concrete details for the C3 witness. -/
def c3Fields : List (String × PyVal) :=
  [("name", .pstr "Sum Array"), ("url", .pstr "https://x/b2"),
   ("description", .pstr "Sum it."), ("rank", .pdict [("name", .pstr "6 kyu")])]

/-- The stub path the C3 witness details map to. -/
def c3StubPath : List String :=
  (EXERCISES_DIR ++ [String.mk (("6 kyu").data.filter (fun c => c != ' ')) ++
    "_python_" ++ sanitize_folder_name "Sum Array"]) ++ ["solution.py"]

/-- A filesystem already holding user-authored work in the stub. -/
def c3FS : FS := ⟨[], [(c3StubPath, .text "MY WORK")]⟩

/-- Witness for C3: an existing stub holding `"MY WORK"` is unchanged
by a later materializer call for the same folder. -/
theorem setup_preserves_stub_and_rewrites_readme_witness :
    getFile ((EXERCISES_DIR ++ [String.mk (("6 kyu").data.filter (fun c => c != ' ')) ++
        "_python_" ++ sanitize_folder_name "Sum Array"]) ++ ["solution.py"])
      (setup_exercise_environment (.pdict c3Fields) "Recomendación Automática"
        ⟨c3FS, []⟩).2.fs.files = some (.text "MY WORK") :=
  (setup_preserves_stub_and_rewrites_readme c3Fields [("name", .pstr "6 kyu")]
    "Recomendación Automática" "Sum Array" "https://x/b2" "Sum it." "6 kyu" c3FS
    rfl rfl rfl rfl rfl).2.1 (.text "MY WORK") rfl

/-! ## C4 — the selection engine of `practice_python` -/

/-- Pure field access with a dummy default; on the well-formed records
the claim quantifies over, this is the record's actual field. -/
def fieldOrEmpty (k : String) (v : PyVal) : PyVal := (pyGet? v k).getD (.pstr "")

/-- The candidate list `practice_python` computes: the index minus the
completed ids (set difference by id). -/
def candidatesOf (katas recs : List PyVal) : List PyVal :=
  katas.filter (fun k =>
    !((recs.map (fieldOrEmpty "id")).any (fun c => pyEq (fieldOrEmpty "id" k) c)))

theorem mapM_loop_ids (xs : List PyVal)
    (h : ∀ x ∈ xs, ∃ f i, x = .pdict f ∧ lookupField "id" f = some i)
    (acc : List PyVal) (st : St) :
    List.mapM.loop (fun kata => pyGetItem kata "id") xs acc st =
      (Except.ok (acc.reverse ++ xs.map (fieldOrEmpty "id")), st) := by
  induction xs generalizing acc with
  | nil => simp [List.mapM.loop, pure_eq_mret, mret]
  | cons x rest ih =>
    obtain ⟨f, i, hxf, hif⟩ := h x (by simp)
    subst hxf
    rw [List.mapM.loop]
    have hstep : pyGetItem (PyVal.pdict f) "id" = mret i := by
      simp [pyGetItem, hif]
    rw [hstep]
    simp only [bind_eq_mbind, mbind, mret]
    rw [ih (fun x hx => h x (by simp [hx])) (i :: acc)]
    simp [fieldOrEmpty, pyGet?, hif]

theorem mapM_ids (xs : List PyVal)
    (h : ∀ x ∈ xs, ∃ f i, x = .pdict f ∧ lookupField "id" f = some i) (st : St) :
    (xs.mapM (fun kata => pyGetItem kata "id")) st =
      (Except.ok (xs.map (fieldOrEmpty "id")), st) := by
  rw [show xs.mapM (fun kata => pyGetItem kata "id") =
    List.mapM.loop (fun kata => pyGetItem kata "id") xs [] from rfl]
  rw [mapM_loop_ids xs h [] st]
  simp

theorem availableKatas_pure (katas completed : List PyVal)
    (h : ∀ k ∈ katas, ∃ f i, k = .pdict f ∧ lookupField "id" f = some i) (st : St) :
    availableKatas katas completed st =
      (Except.ok (katas.filter (fun k =>
        !(completed.any (fun c => pyEq (fieldOrEmpty "id" k) c)))), st) := by
  induction katas with
  | nil => simp [availableKatas, pure_eq_mret, mret]
  | cons k rest ih =>
    obtain ⟨f, i, hkf, hif⟩ := h k (by simp)
    subst hkf
    rw [availableKatas]
    simp only [bind_eq_mbind, pyGetItem, hif, mbind, mret]
    rw [ih (fun x hx => h x (by simp [hx]))]
    have hfe : fieldOrEmpty "id" (.pdict f) = i := by
      simp [fieldOrEmpty, pyGet?, hif]
    rw [List.filter_cons]
    by_cases hany : completed.any (fun c => pyEq i c) = true
    · simp [hany, hfe, pure_eq_mret, mret]
    · rw [Bool.not_eq_true] at hany
      simp [hany, hfe, pure_eq_mret, mret]

theorem pyIn_error_recs (recs : List PyVal)
    (h : ∀ r ∈ recs, ∃ f i, r = .pdict f ∧ lookupField "id" f = some i) :
    pyIn (.pstr "error") (.plist recs) = false := by
  simp only [pyIn, List.any_eq_false]
  intro x hx
  obtain ⟨f, i, hxf, _⟩ := h x hx
  subst hxf
  rw [show pyEq (PyVal.pstr "error") (PyVal.pdict f) = false from rfl]
  simp

/-- The HTTP outcome of a successful completed-page fetch whose `data`
field holds `recs`. -/
def successOutcome (recs : List PyVal) : HttpOutcome :=
  .response 200 (.pdict [("data", .plist recs)]) ""

theorem pyDisplay_pstr (s : String) : pyDisplay (.pstr s) = s := rfl

theorem practice_python_run_empty (u : String) (katas recs : List PyVal) (fs : FS)
    (hu : u ≠ "")
    (hconfig : getFile CONFIG_PATH fs.files =
      some (.jsonVal (.pdict [("codewars_username", .pstr u)])))
    (hindex : getFile INDEX_PATH fs.files = some (.jsonVal (.plist katas)))
    (hkatas : ∀ k ∈ katas, ∃ f i nm, k = .pdict f ∧ lookupField "id" f = some i ∧
      lookupField "name" f = some (.pstr nm))
    (hrecs : ∀ r ∈ recs, ∃ f i, r = .pdict f ∧ lookupField "id" f = some i)
    (hcand : candidatesOf katas recs = []) (p : Nat) :
    (practice_python (successOutcome recs) .timeout p ⟨fs, []⟩).1 =
      Except.ok allDoneMsg := by
  have hIH : ∀ d files, getFile INDEX_PATH (setFile HISTORY_PATH d files) =
      getFile INDEX_PATH files :=
    fun d files => getFile_setFile_ne (by decide) d files
  have h404 : ((200 : Nat) == 404) = false := by decide
  have h2xx : is2xx 200 = true := by decide
  have hcand2 : katas.filter (fun k =>
      !((recs.map (fieldOrEmpty "id")).any (fun c => pyEq (fieldOrEmpty "id" k) c))) =
      ([] : List PyVal) := hcand
  have hpyin := pyIn_error_recs recs hrecs
  have hmapm := mapM_ids recs hrecs
  have hmapml := mapM_loop_ids recs hrecs
  have hmapml0 := mapM_loop_ids [] (by simp)
  by_cases hrE : recs.isEmpty = true
  · have hrnil : recs = [] := by
      cases recs
      · rfl
      · simp [List.isEmpty] at hrE
    subst hrnil
    have hkeq : katas = [] := by
      simpa [candidatesOf] using hcand
    subst hkeq
    simp [practice_python, successOutcome, pyTry, bind_eq_mbind, pure_eq_mret, mbind, mret,
      mraise, load_config, mexists, mread, ioStep, jsonLoads, FS.exists, hconfig, hindex,
      pyTruthy, hu, pyDisplay_pstr, sync_history_internal, fetch_user_completed, h404, h2xx,
      lookupField, mmkdir, mwrite, pyIterList, hpyin, hmapml0, availableKatas,
      getFile_setFile_same, hIH]
  · have hmE : ((recs.map (fieldOrEmpty "id")).isEmpty) = false := by
      cases recs
      · simp [List.isEmpty] at hrE
      · simp [List.isEmpty]
    have havail := availableKatas_pure katas (recs.map (fieldOrEmpty "id")) (fun k hk => by
      obtain ⟨f2, i2, nm2, hkf, hki, _⟩ := hkatas k hk
      exact ⟨f2, i2, hkf, hki⟩)
    have hcand3 : List.filter (fun k =>
        !recs.any ((fun c => pyEq (fieldOrEmpty "id" k) c) ∘ fieldOrEmpty "id")) katas =
        ([] : List PyVal) := by
      simpa using hcand2
    simp [practice_python, successOutcome, pyTry, bind_eq_mbind, pure_eq_mret, mbind, mret,
      mraise, load_config, mexists, mread, ioStep, jsonLoads, FS.exists, hconfig, hindex,
      pyTruthy, hu, pyDisplay_pstr, sync_history_internal, fetch_user_completed, h404, h2xx,
      lookupField, mmkdir, mwrite, pyIterList, hpyin, hmapm, hmapml, hmapml0, hmE, havail,
      getFile_setFile_same, hIH, hcand2, hcand3]

theorem practice_python_run_cons (u : String) (katas recs : List PyVal) (fs : FS)
    (hu : u ≠ "")
    (hconfig : getFile CONFIG_PATH fs.files =
      some (.jsonVal (.pdict [("codewars_username", .pstr u)])))
    (hindex : getFile INDEX_PATH fs.files = some (.jsonVal (.plist katas)))
    (hkatas : ∀ k ∈ katas, ∃ f i nm, k = .pdict f ∧ lookupField "id" f = some i ∧
      lookupField "name" f = some (.pstr nm))
    (hrecs : ∀ r ∈ recs, ∃ f i, r = .pdict f ∧ lookupField "id" f = some i)
    (a : PyVal) (cs : List PyVal) (hcand : candidatesOf katas recs = a :: cs) (p : Nat) :
    (practice_python (successOutcome recs) .timeout p ⟨fs, []⟩).1 =
      Except.ok (downloadErrMsg
        (pyDisplay (fieldOrEmpty "name" (listChoice (a :: cs) p)))
        ("Timeout al obtener detalles del kata '" ++
          pyDisplay (fieldOrEmpty "id" (listChoice (a :: cs) p)) ++
          "'. Intenta nuevamente.")) := by
  have hselmem : listChoice (a :: cs) p ∈ katas := by
    have h1 : listChoice (a :: cs) p ∈ candidatesOf katas recs := by
      rw [hcand]
      unfold listChoice
      have hlt : p % (a :: cs).length < (a :: cs).length :=
        Nat.mod_lt _ (Nat.succ_pos _)
      rw [List.getD_eq_getElem?_getD, List.getElem?_eq_getElem hlt]
      exact List.getElem_mem _
    exact List.mem_of_mem_filter h1
  obtain ⟨f, i, nm, hself, hid, hnm⟩ := hkatas _ hselmem
  have hselid : pyGetItem (listChoice (a :: cs) p) "id" = mret i := by
    rw [hself]
    simp [pyGetItem, hid]
  have hselnm : pyGetItem (listChoice (a :: cs) p) "name" = mret (.pstr nm) := by
    rw [hself]
    simp [pyGetItem, hnm]
  have hfe_nm : pyDisplay (fieldOrEmpty "name" (listChoice (a :: cs) p)) = nm := by
    rw [hself]
    simp [fieldOrEmpty, pyGet?, hnm, pyDisplay]
  have hfe_id : fieldOrEmpty "id" (listChoice (a :: cs) p) = i := by
    rw [hself]
    simp [fieldOrEmpty, pyGet?, hid]
  have hIH : ∀ d files, getFile INDEX_PATH (setFile HISTORY_PATH d files) =
      getFile INDEX_PATH files :=
    fun d files => getFile_setFile_ne (by decide) d files
  have h404 : ((200 : Nat) == 404) = false := by decide
  have h2xx : is2xx 200 = true := by decide
  have herr : ∀ m, pyGetItem (errorDict m) "error" = mret (.pstr m) := by
    intro m
    simp [pyGetItem, errorDict, lookupField]
  have hpyerr : ∀ m, pyIn (PyVal.pstr "error") (errorDict m) = true := by
    intro m
    simp [pyIn, errorDict]
  have hcand2 : katas.filter (fun k =>
      !((recs.map (fieldOrEmpty "id")).any (fun c => pyEq (fieldOrEmpty "id" k) c))) =
      a :: cs := hcand
  have hpyin := pyIn_error_recs recs hrecs
  have hmapm := mapM_ids recs hrecs
  have hmapml := mapM_loop_ids recs hrecs
  have hmapml0 := mapM_loop_ids [] (by simp)
  by_cases hrE : recs.isEmpty = true
  · have hrnil : recs = [] := by
      cases recs
      · rfl
      · simp [List.isEmpty] at hrE
    subst hrnil
    have hkeq : katas = a :: cs := by
      simpa [candidatesOf] using hcand
    subst hkeq
    have havail3 : ∀ st, availableKatas (a :: cs) [] st = (Except.ok (a :: cs), st) := by
      intro st
      have hwf : ∀ k ∈ (a :: cs), ∃ f2 i2, k = PyVal.pdict f2 ∧
          lookupField "id" f2 = some i2 := fun k hk => by
        obtain ⟨f2, i2, nm2, hkf, hki, _⟩ := hkatas k hk
        exact ⟨f2, i2, hkf, hki⟩
      have := availableKatas_pure (a :: cs) [] hwf st
      simpa using this
    simp [practice_python, successOutcome, pyTry, bind_eq_mbind, pure_eq_mret, mbind, mret,
      mraise, load_config, mexists, mread, ioStep, jsonLoads, FS.exists, hconfig, hindex,
      pyTruthy, hu, pyDisplay_pstr, sync_history_internal, fetch_user_completed, h404, h2xx,
      lookupField, mmkdir, mwrite, pyIterList, hpyin, hmapml0, havail3,
      getFile_setFile_same, hIH, hselid, hselnm, hfe_nm, hfe_id, fetch_kata_details,
      hpyerr, downloadErrMsg, herr]
  · have hmE : ((recs.map (fieldOrEmpty "id")).isEmpty) = false := by
      cases recs
      · simp [List.isEmpty] at hrE
      · simp [List.isEmpty]
    have havail := availableKatas_pure katas (recs.map (fieldOrEmpty "id")) (fun k hk => by
      obtain ⟨f2, i2, nm2, hkf, hki, _⟩ := hkatas k hk
      exact ⟨f2, i2, hkf, hki⟩)
    have hcand3 : List.filter (fun k =>
        !recs.any ((fun c => pyEq (fieldOrEmpty "id" k) c) ∘ fieldOrEmpty "id")) katas =
        a :: cs := by
      simpa using hcand2
    simp [practice_python, successOutcome, pyTry, bind_eq_mbind, pure_eq_mret, mbind, mret,
      mraise, load_config, mexists, mread, ioStep, jsonLoads, FS.exists, hconfig, hindex,
      pyTruthy, hu, pyDisplay_pstr, sync_history_internal, fetch_user_completed, h404, h2xx,
      lookupField, mmkdir, mwrite, pyIterList, hpyin, hmapm, hmapml, hmapml0, hmE, havail,
      getFile_setFile_same, hIH, hcand2, hcand3, hselid, hselnm, hfe_nm, hfe_id,
      fetch_kata_details, hpyerr, downloadErrMsg, herr]

theorem listChoice_eq_get (xs : List PyVal) (r : Nat) (h : r < xs.length) :
    listChoice xs r = xs.get ⟨r, h⟩ := by
  unfold listChoice
  rw [Nat.mod_eq_of_lt h]
  rw [List.getD_eq_getElem?_getD, List.getElem?_eq_getElem h]
  simp [List.get_eq_getElem]

/-- C4: in `practice_python`, the candidate set is the index minus the
completed-id set (set difference by id); an empty candidate set yields
the distinct "all done" outcome (a normally returned message, not an
error and not an exception); with exactly one candidate left, that
candidate is selected whatever the random oracle says; and in general
the oracle value `r < n` selects exactly the `r`-th candidate, so a
uniform oracle picks uniformly among the candidates.  The selected
candidate is observed through the item-specific failure message of a
detail-fetch timeout, which names the selected kata and carries its
id. -/
theorem practice_python_selection_spec (u : String) (katas recs : List PyVal) (fs : FS)
    (pick : Nat) (hu : u ≠ "")
    (hconfig : getFile CONFIG_PATH fs.files =
      some (.jsonVal (.pdict [("codewars_username", .pstr u)])))
    (hindex : getFile INDEX_PATH fs.files = some (.jsonVal (.plist katas)))
    (hkatas : ∀ k ∈ katas, ∃ f i nm, k = .pdict f ∧ lookupField "id" f = some i ∧
      lookupField "name" f = some (.pstr nm))
    (hrecs : ∀ r ∈ recs, ∃ f i, r = .pdict f ∧ lookupField "id" f = some i) :
    (candidatesOf katas recs = [] →
      (practice_python (successOutcome recs) .timeout pick ⟨fs, []⟩).1 =
        Except.ok allDoneMsg) ∧
      (∀ r (hr : r < (candidatesOf katas recs).length),
        (practice_python (successOutcome recs) .timeout r ⟨fs, []⟩).1 =
          Except.ok (downloadErrMsg
            (pyDisplay (fieldOrEmpty "name" ((candidatesOf katas recs).get ⟨r, hr⟩)))
            ("Timeout al obtener detalles del kata '" ++
              pyDisplay (fieldOrEmpty "id" ((candidatesOf katas recs).get ⟨r, hr⟩)) ++
              "'. Intenta nuevamente."))) ∧
      (∀ k, candidatesOf katas recs = [k] →
        (practice_python (successOutcome recs) .timeout pick ⟨fs, []⟩).1 =
          Except.ok (downloadErrMsg (pyDisplay (fieldOrEmpty "name" k))
            ("Timeout al obtener detalles del kata '" ++
              pyDisplay (fieldOrEmpty "id" k) ++ "'. Intenta nuevamente."))) := by
  have hgets : ∀ (l l2 : List PyVal) (hll : l = l2) (i : Nat) (h1 : i < l.length)
      (h2 : i < l2.length), l.get ⟨i, h1⟩ = l2.get ⟨i, h2⟩ := by
    intro l l2 hll i h1 h2
    subst hll
    rfl
  refine ⟨fun hc =>
    practice_python_run_empty u katas recs fs hu hconfig hindex hkatas hrecs hc pick,
    ?_, ?_⟩
  · intro r hr
    revert hr
    rcases hcand : candidatesOf katas recs with _ | ⟨a, cs⟩
    · intro hr
      simp at hr
    · intro hr
      have hrun := practice_python_run_cons u katas recs fs hu hconfig hindex hkatas hrecs
        a cs hcand r
      rw [hrun]
      have hch : listChoice (a :: cs) r = (a :: cs).get ⟨r, hr⟩ :=
        listChoice_eq_get (a :: cs) r hr
      rw [hch]
  · intro k hk
    have hrun := practice_python_run_cons u katas recs fs hu hconfig hindex hkatas hrecs
      k [] hk pick
    rw [hrun]
    have hone : listChoice (k :: []) pick = k := by
      simp [listChoice, Nat.mod_one]
    rw [hone]

/-- Witness for C4: index `[a1 "Valid Braces", b2 "Sum Array"]`,
completed `[a1]`; the oracle value 0 selects the one remaining
candidate `b2` ("Sum Array"). -/
theorem practice_python_selection_spec_witness :
    (practice_python (successOutcome [.pdict [("id", .pstr "a1")]]) .timeout 0
        ⟨⟨[], [(CONFIG_PATH, .jsonVal (.pdict [("codewars_username", .pstr "alice")])),
               (INDEX_PATH, .jsonVal (.plist
                 [.pdict [("id", .pstr "a1"), ("name", .pstr "Valid Braces")],
                  .pdict [("id", .pstr "b2"), ("name", .pstr "Sum Array")]]))]⟩,
          []⟩).1 =
      Except.ok (downloadErrMsg "Sum Array"
        ("Timeout al obtener detalles del kata '" ++ "b2" ++ "'. Intenta nuevamente.")) := by
  have h := (practice_python_selection_spec "alice"
    [.pdict [("id", .pstr "a1"), ("name", .pstr "Valid Braces")],
     .pdict [("id", .pstr "b2"), ("name", .pstr "Sum Array")]]
    [.pdict [("id", .pstr "a1")]]
    ⟨[], [(CONFIG_PATH, .jsonVal (.pdict [("codewars_username", .pstr "alice")])),
          (INDEX_PATH, .jsonVal (.plist
            [.pdict [("id", .pstr "a1"), ("name", .pstr "Valid Braces")],
             .pdict [("id", .pstr "b2"), ("name", .pstr "Sum Array")]]))]⟩
    0 (by decide) rfl rfl
    (by
      intro k hk
      simp only [List.mem_cons, List.mem_singleton] at hk
      rcases hk with h1 | h1 | h1
      · exact ⟨_, .pstr "a1", "Valid Braces", h1, rfl, rfl⟩
      · exact ⟨_, .pstr "b2", "Sum Array", h1, rfl, rfl⟩
      · cases h1
    )
    (by
      intro r hr
      simp only [List.mem_singleton] at hr
      exact ⟨_, .pstr "a1", hr, rfl⟩)).2.2
    (.pdict [("id", .pstr "b2"), ("name", .pstr "Sum Array")]) rfl
  simpa using h

end CodewarsTutor
